import Mathlib

/-!
Shallow embedding of the SIH (Smart Tourist Safety) repository.

Server side (src/server/SafetyScoringService.ts): the safety-score
computation `computeScore`, the decay helpers `applyTimeDecay` /
`applySpatialDecay`, terrain risk, and the cache-updating sweep
`updateAllZoneScores`.  JavaScript numbers are modelled as exact
rationals (ℚ) where the code is algebraic, and as reals (ℝ) for the
exponential decay helpers.  Database access is modelled as an abstract
fallible fetch function; a thrown exception is an `Except.error`.

Client side (src/client/src/lib/safetyZones.ts): the zone classifier
`getSafetyZone` and the time/weather score adjustments.  There the
number model `JSNum` carries an explicit NaN so that JavaScript's
comparison semantics on malformed coordinates can be stated; the
transcendental primitives of the haversine formula (`Math.sin`,
`Math.cos`, `Math.atan2`, `Math.sqrt`, `Math.PI`) are abstract
parameters, constrained only where a claim needs it (NaN propagation).
-/

namespace Server

/-- Inputs to the safety score, mirroring the `SafetyInput` interface. -/
structure SafetyInput where
  incidents : ℚ
  newsAlerts : ℚ
  policeDistance : ℚ
  touristDensity : ℚ
  terrainRisk : ℚ
  timeRisk : ℚ
deriving DecidableEq

/-- The normalized factor breakdown stored with each computed score. -/
structure Factors where
  incidents : ℚ
  news : ℚ
  policeProximity : ℚ
  density : ℚ
  terrain : ℚ
  timeOfDay : ℚ
deriving DecidableEq

/-- A computed safety score, mirroring `ComputedSafetyScore` (the
`lastUpdated` wall-clock field is omitted: no claim depends on it).
The category is the literal string the code uses. -/
structure ComputedSafetyScore where
  score : ℚ
  confidence : ℚ
  factors : Factors
  category : String
deriving DecidableEq

/-- Model of `normalize(value, min, max)`: clamp `(value-min)/(max-min)` into [0,1],
returning 0.5 when the range is degenerate. -/
def normalize (value mn mx : ℚ) : ℚ :=
  if mx = mn then 1/2 else max 0 (min 1 ((value - mn) / (mx - mn)))

/-- Model of `getTerrainRisk(zoneType)`: lookup with default 0.5 (`terrainRisks[zoneType] || 0.5`;
every table entry is nonzero, so `||` only fires on a missing key). -/
def getTerrainRisk (zoneType : String) : ℚ :=
  if zoneType = "safe" then 0.1
  else if zoneType = "moderate" then 0.5
  else if zoneType = "unsafe" then 0.9
  else if zoneType = "forest" then 0.6
  else if zoneType = "restricted" then 0.8
  else 0.5

/-- Model of `computeScore(inputs, terrainRisk)`: weighted sum of normalized factors
on a 0-100 scale, clamped to [0,100]; confidence 0.5 plus data-availability
bonuses, capped at 1; category by fixed thresholds on the clamped score. -/
def computeScore (inputs : SafetyInput) (terrainRisk : ℚ) : ComputedSafetyScore :=
  let normalizedIncidents := normalize inputs.incidents 0 5
  let normalizedNews := normalize inputs.newsAlerts 0 10
  let normalizedPoliceDistance := 1 - normalize inputs.policeDistance 0 20
  let normalizedDensity := normalize inputs.touristDensity 0 20
  let normalizedTerrain := terrainRisk
  let normalizedTime := inputs.timeRisk
  let score := 100 * (normalizedIncidents * 0.3 + normalizedNews * 0.2 +
    normalizedTerrain * 0.1 + normalizedTime * 0.05 + normalizedDensity * 0.15 -
    normalizedPoliceDistance * 0.2)
  let finalScore := max 0 (min 100 score)
  let confidence :=
    min 1 (0.5 + (if inputs.incidents > 0 then (0.2 : ℚ) else 0) +
      (if inputs.newsAlerts > 0 then (0.15 : ℚ) else 0) +
      (if inputs.policeDistance < 50 then (0.15 : ℚ) else 0) +
      (if inputs.touristDensity > 0 then (0.1 : ℚ) else 0))
  let category :=
    if finalScore ≤ 20 then "safe" else if finalScore ≤ 50 then "moderate" else "unsafe"
  { score := finalScore
    confidence := confidence
    factors :=
      ⟨normalizedIncidents, normalizedNews, normalizedPoliceDistance,
        normalizedDensity, normalizedTerrain, normalizedTime⟩
    category := category }

/-- Model of `applyTimeDecay(value, hoursAgo)`: half-life decay with
`decayRate = log(0.5) / timeDecayHours` and `timeDecayHours = 24`. -/
noncomputable def applyTimeDecay (value hoursAgo : ℝ) : ℝ :=
  value * Real.exp (Real.log (1/2) / 24 * hoursAgo)

/-- Model of `applySpatialDecay(value, distanceKm)`: half-life decay with
`decayRate = log(0.5) / spatialDecayKm` and `spatialDecayKm = 5`. -/
noncomputable def applySpatialDecay (value distanceKm : ℝ) : ℝ :=
  value * Real.exp (Real.log (1/2) / 5 * distanceKm)

/-- The JSON `coordinates` record of a safety-zone row: an optional
`center` object and optional raw `lat`/`lng` fields. -/
structure ZoneCoords where
  center : Option (ℚ × ℚ)
  lat : Option ℚ
  lng : Option ℚ
deriving DecidableEq

/-- A safety-zone row as the sweep consumes it. -/
structure Zone where
  id : String
  zoneType : String
  coordinates : Option ZoneCoords
deriving DecidableEq

/-- Coordinate extraction in `updateAllZoneScores`: default to Guwahati
(26.1445, 91.7362); use `coords.center` when present, else the raw
`lat`/`lng` pair when both fields are present and truthy (a zero
coordinate is falsy in JavaScript, so `coords.lat && coords.lng`
falls back to the default). -/
def extractZoneCoords : Option ZoneCoords → ℚ × ℚ
  | none => (26.1445, 91.7362)
  | some c =>
    match c.center with
    | some p => p
    | none =>
      match c.lat, c.lng with
      | some la, some ln => if la ≠ 0 ∧ ln ≠ 0 then (la, ln) else (26.1445, 91.7362)
      | _, _ => (26.1445, 91.7362)

/-- The score cache (`scoreCache`): association list, newest entry first. -/
abbrev Cache := List (String × ComputedSafetyScore)

/-- Model of `scoreCache.set(id, v)`. -/
def cacheInsert (c : Cache) (k : String) (v : ComputedSafetyScore) : Cache :=
  (k, v) :: c

/-- Model of `scoreCache.get(id)`. -/
def cacheLookup (c : Cache) (k : String) : Option ComputedSafetyScore :=
  (c.find? (fun p => p.1 == k)).map (fun p => p.2)

/-- Model of `updateAllZoneScores()`: one sweep over the zone list.  Per zone:
extract coordinates, gather inputs (`calculateSafetyInputs`, abstracted
as `fetch`, which may throw), overwrite `terrainRisk`, compute and cache
the score.  The `try/catch` wraps the whole loop, so the first `fetch`
failure aborts the remaining iterations and the sweep returns with the
cache as updated so far (never fatal to the process). -/
def updateAllZoneScores (fetch : Zone → ℚ → ℚ → Except Unit SafetyInput) :
    List Zone → Cache → Cache
  | [], c => c
  | z :: zs, c =>
    let p := extractZoneCoords z.coordinates
    match fetch z p.1 p.2 with
    | .error _ => c
    | .ok inputs =>
      let terrainRisk := getTerrainRisk z.zoneType
      updateAllZoneScores fetch zs
        (cacheInsert c z.id (computeScore { inputs with terrainRisk := terrainRisk } terrainRisk))

end Server

namespace Client

/-- A JavaScript number as used by the client classifier: NaN or an exact
rational.  (Infinities do not arise in the fragments modelled here.) -/
inductive JSNum where
  | nan : JSNum
  | num (q : ℚ) : JSNum
deriving DecidableEq

/-- JavaScript `<`: false whenever either operand is NaN. -/
def jlt : JSNum → JSNum → Bool
  | .num a, .num b => decide (a < b)
  | _, _ => false

/-- JavaScript `>`: false whenever either operand is NaN. -/
def jgt : JSNum → JSNum → Bool
  | .num a, .num b => decide (b < a)
  | _, _ => false

/-- JavaScript `+` on numbers: NaN-propagating. -/
def jadd : JSNum → JSNum → JSNum
  | .num a, .num b => .num (a + b)
  | _, _ => .nan

/-- JavaScript `-`: NaN-propagating. -/
def jsub : JSNum → JSNum → JSNum
  | .num a, .num b => .num (a - b)
  | _, _ => .nan

/-- JavaScript `*`: NaN-propagating. -/
def jmul : JSNum → JSNum → JSNum
  | .num a, .num b => .num (a * b)
  | _, _ => .nan

/-- JavaScript `/`: NaN-propagating.  (Division by zero yields ±∞ in
JavaScript; the classifier only divides by the nonzero constants 180
and 2, so that case never arises and is mapped to NaN here.) -/
def jdiv : JSNum → JSNum → JSNum
  | .num a, .num b => if b = 0 then .nan else .num (a / b)
  | _, _ => .nan

/-- JavaScript `Math.min` on two numbers: NaN-propagating. -/
def jmin : JSNum → JSNum → JSNum
  | .num a, .num b => .num (min a b)
  | _, _ => .nan

/-- Model of `Math.min(...xs)` over a spread list (the city list is never empty,
so the empty case is unreachable; JavaScript would give +∞ there). -/
def jminList : List JSNum → JSNum
  | [] => .nan
  | [x] => x
  | x :: y :: xs => jmin x (jminList (y :: xs))

/-- A named area (restricted border zone or forest reserve) with its
anchor coordinates. -/
structure NamedArea where
  name : String
  state : String
  lat : ℚ
  lng : ℚ
  description : String
deriving DecidableEq

/-- A major city entry of `NORTHEAST_CITIES` (object key, lat, lng, state);
`Object.entries` iterates in insertion order. -/
structure City where
  name : String
  lat : ℚ
  lng : ℚ
  state : String
deriving DecidableEq

/-- The rectangle `NORTHEAST_BOUNDS`: 23°N-29°N, 88°E-97°E (the source writes the
bounds as 29.0 etc.). -/
structure Bounds where
  north : ℚ
  south : ℚ
  east : ℚ
  west : ℚ
deriving DecidableEq

def NORTHEAST_BOUNDS : Bounds := ⟨29, 23, 97, 88⟩

/-- The list `RESTRICTED_ZONES`, in declaration order. -/
def RESTRICTED_ZONES : List NamedArea := [
  ⟨"China Border - Arunachal Pradesh", "Arunachal Pradesh", 28.2180, 94.7278,
    "International border area requiring special permits"⟩,
  ⟨"China Border - Sikkim", "Sikkim", 27.3914, 88.8414,
    "Nathu La Pass and surrounding border areas"⟩,
  ⟨"Myanmar Border - Nagaland", "Nagaland", 26.1584, 95.1376,
    "International border with Myanmar"⟩,
  ⟨"Myanmar Border - Manipur", "Manipur", 24.4825, 94.1086,
    "Moreh border crossing and surrounding areas"⟩,
  ⟨"Myanmar Border - Mizoram", "Mizoram", 23.1645, 93.2990,
    "International border with Myanmar"⟩,
  ⟨"Bangladesh Border - Meghalaya", "Meghalaya", 25.1167, 91.7667,
    "Dawki border and surrounding areas"⟩,
  ⟨"Bangladesh Border - Tripura", "Tripura", 23.8315, 91.2868,
    "Agartala border and surrounding areas"⟩,
  ⟨"Bangladesh Border - Assam", "Assam", 24.8000, 89.9000,
    "International border areas"⟩]

/-- The list `FOREST_ZONES`, in declaration order. -/
def FOREST_ZONES : List NamedArea := [
  ⟨"Kaziranga National Park", "Assam", 26.5775, 93.1717,
    "UNESCO World Heritage Site, home to one-horned rhinoceros"⟩,
  ⟨"Manas National Park", "Assam", 26.7044, 90.9127,
    "UNESCO World Heritage Site and Tiger Reserve"⟩,
  ⟨"Nameri National Park", "Assam", 26.9333, 92.8500,
    "Tiger Reserve with diverse wildlife"⟩,
  ⟨"Dibru-Saikhowa National Park", "Assam", 27.5833, 95.1833,
    "Wetland ecosystem with feral horses"⟩,
  ⟨"Balphakram National Park", "Meghalaya", 25.2000, 90.9333,
    "Land of perpetual winds"⟩,
  ⟨"Nokrek National Park", "Meghalaya", 25.5000, 90.2000,
    "Biosphere reserve with wild citrus fruits"⟩,
  ⟨"Namdapha National Park", "Arunachal Pradesh", 27.5000, 96.3500,
    "Largest protected area in Northeast India"⟩,
  ⟨"Mouling National Park", "Arunachal Pradesh", 28.3000, 95.1500,
    "Important bird area with rare species"⟩,
  ⟨"Intanki National Park", "Nagaland", 25.5667, 93.9833,
    "Hornbill habitat and tribal conservation area"⟩,
  ⟨"Keibul Lamjao National Park", "Manipur", 24.5167, 93.8167,
    "Floating national park, home to Sangai deer"⟩,
  ⟨"Murlen National Park", "Mizoram", 23.7000, 93.2833,
    "Montane forest ecosystem"⟩,
  ⟨"Phawngpui Blue Mountain National Park", "Mizoram", 22.6167, 93.0167,
    "Highest peak in Mizoram"⟩,
  ⟨"Clouded Leopard National Park", "Tripura", 23.8000, 91.4167,
    "Home to clouded leopards and primates"⟩,
  ⟨"Bison National Park", "Tripura", 23.7500, 91.4500,
    "Gaur (Indian bison) habitat"⟩,
  ⟨"Khangchendzonga National Park", "Sikkim", 27.7000, 88.1500,
    "UNESCO World Heritage Site around Mt. Kanchenjunga"⟩]

/-- The list `NORTHEAST_CITIES`, in object-key insertion order. -/
def NORTHEAST_CITIES : List City := [
  ⟨"Guwahati", 26.1445, 91.7362, "Assam"⟩,
  ⟨"Shillong", 25.5788, 91.8933, "Meghalaya"⟩,
  ⟨"Itanagar", 27.0844, 93.6053, "Arunachal Pradesh"⟩,
  ⟨"Kohima", 25.6751, 94.1086, "Nagaland"⟩,
  ⟨"Imphal", 24.8170, 93.9368, "Manipur"⟩,
  ⟨"Aizawl", 23.7307, 92.7173, "Mizoram"⟩,
  ⟨"Agartala", 23.8315, 91.2868, "Tripura"⟩,
  ⟨"Gangtok", 27.3389, 88.6065, "Sikkim"⟩,
  ⟨"Tezpur", 26.6344, 92.7933, "Assam"⟩,
  ⟨"Dibrugarh", 27.4728, 94.9120, "Assam"⟩,
  ⟨"Silchar", 24.8333, 92.7789, "Assam"⟩,
  ⟨"Cherrapunji", 25.2747, 91.7323, "Meghalaya"⟩,
  ⟨"Dawki", 25.1167, 91.7667, "Meghalaya"⟩,
  ⟨"Tawang", 27.5859, 91.8716, "Arunachal Pradesh"⟩,
  ⟨"Mokokchung", 26.3226, 94.5251, "Nagaland"⟩,
  ⟨"Loktak Lake", 24.5500, 93.7833, "Manipur"⟩,
  ⟨"Lunglei", 22.8879, 92.7345, "Mizoram"⟩,
  ⟨"Udaipur", 23.5331, 91.4865, "Tripura"⟩,
  ⟨"Pelling", 27.2152, 88.2426, "Sikkim"⟩,
  ⟨"Namchi", 27.1651, 88.3644, "Sikkim"⟩]

/-- The record returned by `getSafetyZone`. -/
structure SafetyZoneResult where
  zoneType : String
  score : ℚ
  reason : String
deriving DecidableEq

/-- Model of `calculateDistance(lat1, lon1, lat2, lon2)` (haversine, R = 6371 km),
with the transcendental primitives `Math.sin` (`S`), `Math.cos` (`C`),
`Math.atan2` (`A`), `Math.sqrt` (`Q`) and the constant `Math.PI` (`piJ`)
as abstract parameters. -/
def calculateDistance (S C : JSNum → JSNum) (A : JSNum → JSNum → JSNum)
    (Q : JSNum → JSNum) (piJ : JSNum) (lat1 lon1 lat2 lon2 : JSNum) : JSNum :=
  let dLat := jdiv (jmul (jsub lat2 lat1) piJ) (.num 180)
  let dLon := jdiv (jmul (jsub lon2 lon1) piJ) (.num 180)
  let a := jadd (jmul (S (jdiv dLat (.num 2))) (S (jdiv dLat (.num 2))))
    (jmul (jmul (C (jdiv (jmul lat1 piJ) (.num 180))) (C (jdiv (jmul lat2 piJ) (.num 180))))
      (jmul (S (jdiv dLon (.num 2))) (S (jdiv dLon (.num 2)))))
  let c := jmul (.num 2) (A (Q a) (Q (jsub (.num 1) a)))
  jmul (.num 6371) c

/-- Model of `getSafetyZone(lat, lng)`, parametrized by the distance function it
calls (`calculateDistance` with JavaScript's math primitives).  Checks,
in order: jurisdiction bounds, restricted border areas (< 10 km), forest
reserves (< 5 km), major cities (< 20 km), rural (< 50 km to the nearest
city), and finally remote. -/
def getSafetyZone (dist : JSNum → JSNum → JSNum → JSNum → JSNum)
    (lat lng : JSNum) : SafetyZoneResult :=
  if jlt lat (.num NORTHEAST_BOUNDS.south) || jgt lat (.num NORTHEAST_BOUNDS.north)
      || jlt lng (.num NORTHEAST_BOUNDS.west) || jgt lng (.num NORTHEAST_BOUNDS.east) then
    ⟨"restricted", 0, "Outside Northeast India jurisdiction"⟩
  else
    match RESTRICTED_ZONES.find? (fun z => jlt (dist lat lng (.num z.lat) (.num z.lng)) (.num 10)) with
    | some z => ⟨"restricted", 20, z.description⟩
    | none =>
      match FOREST_ZONES.find? (fun f => jlt (dist lat lng (.num f.lat) (.num f.lng)) (.num 5)) with
      | some f => ⟨"forest", 60, "Near " ++ f.name ++ " - " ++ f.description⟩
      | none =>
        match NORTHEAST_CITIES.find? (fun c => jlt (dist lat lng (.num c.lat) (.num c.lng)) (.num 20)) with
        | some c => ⟨"safe", 90, "Near " ++ c.name ++ ", " ++ c.state ++ " - Tourist-friendly area"⟩
        | none =>
          let nearestCityDistance :=
            jminList (NORTHEAST_CITIES.map (fun c => dist lat lng (.num c.lat) (.num c.lng)))
          if jlt nearestCityDistance (.num 50) then
            ⟨"moderate", 70, "Rural area with moderate infrastructure"⟩
          else
            ⟨"unsafe", 40, "Remote area with limited infrastructure and connectivity"⟩

/-- Model of `adjustSafetyScoreForTime(baseScore, hour)`: night penalty −20 for
`hour >= 22 || hour <= 6`, twilight penalty −10 for
`(6 <= hour <= 8) || (19 <= hour <= 22)`, clamped at 0. -/
def adjustSafetyScoreForTime (baseScore : ℚ) (hour : ℕ) : ℚ :=
  if 22 ≤ hour ∨ hour ≤ 6 then max (baseScore - 20) 0
  else if (6 ≤ hour ∧ hour ≤ 8) ∨ (19 ≤ hour ∧ hour ≤ 22) then max (baseScore - 10) 0
  else baseScore

/-- Whether the pattern is a leading segment of the haystack list. -/
def listStarts : List Char → List Char → Bool
  | [], _ => true
  | _ :: _, [] => false
  | a :: as, b :: bs => a == b && listStarts as bs

/-- The pattern occurs somewhere in the haystack list. -/
def listHasSub (sub : List Char) : List Char → Bool
  | [] => sub.isEmpty
  | b :: bs => listStarts sub (b :: bs) || listHasSub sub bs

/-- JavaScript `s.includes(sub)`. -/
def jsIncludes (s sub : String) : Bool := listHasSub sub.data s.data

/-- JavaScript `s.toLowerCase()` (ASCII suffices for the weather terms). -/
def strToLower (s : String) : String := String.mk (s.data.map Char.toLower)

/-- Model of `adjustSafetyScoreForWeather(baseScore, conditions)`: lower-case the
condition text, then check the severe tier (−30), the rain/fog/mist tier
(−15), and the snow/hail tier (−25), in this source order, clamping at 0. -/
def adjustSafetyScoreForWeather (baseScore : ℚ) (conditions : String) : ℚ :=
  let weather := strToLower conditions
  if jsIncludes weather ("heavy rain") || jsIncludes weather ("storm") || jsIncludes weather ("cyclone") then
    max (baseScore - 30) 0
  else if jsIncludes weather ("rain") || jsIncludes weather ("fog") || jsIncludes weather ("mist") then
    max (baseScore - 15) 0
  else if jsIncludes weather ("snow") || jsIncludes weather ("hail") then
    max (baseScore - 25) 0
  else baseScore

end Client

/-- The concrete fetch used in the C5 counterexample and witness: fails
for the zone with id `z1`, succeeds for every other zone. -/
def fetchFailFirst : Server.Zone → ℚ → ℚ → Except Unit Server.SafetyInput :=
  fun z _ _ => if z.id = "z1" then .error () else .ok ⟨0, 0, 0, 0, 0, 0⟩

def zoneFail : Server.Zone := ⟨"z1", "safe", none⟩

def zoneNext : Server.Zone := ⟨"z2", "safe", none⟩

/-- The bounds every cached score entry must satisfy. -/
def Server.scoreBounded (v : Server.ComputedSafetyScore) : Prop :=
  0 ≤ v.score ∧ v.score ≤ 100 ∧ 0 ≤ v.confidence ∧ v.confidence ≤ 1

/-- Helper: `computeScore` output is bounded, for any inputs whatsoever. -/
theorem computeScoreBoundedAux (inputs : Server.SafetyInput) (terrainRisk : ℚ) :
    Server.scoreBounded (Server.computeScore inputs terrainRisk) := by
  refine ⟨?_, ?_, ?_, ?_⟩
  · exact le_max_left _ _
  · exact max_le (by norm_num) (min_le_left _ _)
  · refine le_min (by norm_num) ?_
    have h1 : (0:ℚ) ≤ if inputs.incidents > 0 then (0.2 : ℚ) else 0 := by split <;> norm_num
    have h2 : (0:ℚ) ≤ if inputs.newsAlerts > 0 then (0.15 : ℚ) else 0 := by split <;> norm_num
    have h3 : (0:ℚ) ≤ if inputs.policeDistance < 50 then (0.15 : ℚ) else 0 := by
      split <;> norm_num
    have h4 : (0:ℚ) ≤ if inputs.touristDensity > 0 then (0.1 : ℚ) else 0 := by split <;> norm_num
    have : (0:ℚ) ≤ 0.5 := by norm_num
    linarith
  · exact min_le_left _ _

/-- Helper: one sweep preserves boundedness of every cache entry. -/
theorem updateAllZoneScoresBoundedAux (fetch : Server.Zone → ℚ → ℚ → Except Unit Server.SafetyInput)
    (zones : List Server.Zone) :
    ∀ (cache : Server.Cache), (∀ e ∈ cache, Server.scoreBounded e.2) →
      ∀ e ∈ Server.updateAllZoneScores fetch zones cache, Server.scoreBounded e.2 := by
  induction zones with
  | nil => intro cache h; simpa [Server.updateAllZoneScores] using h
  | cons z zs ih =>
    intro cache h
    simp only [Server.updateAllZoneScores]
    cases hf : fetch z (Server.extractZoneCoords z.coordinates).1
        (Server.extractZoneCoords z.coordinates).2 with
    | error e => exact h
    | ok i =>
      apply ih
      intro e he
      rcases List.mem_cons.mp he with he | he
      · subst he; exact computeScoreBoundedAux _ _
      · exact h e he

/-- C1: for every `SafetyInput` (including adversarial extremes) and every
terrain-risk value, `computeScore` yields a score in [0,100] and a
confidence in [0,1]; consequently a recompute sweep only ever stores
bounded entries in the score cache (every entry of a cache whose entries
were all bounded stays bounded after `updateAllZoneScores`). -/
theorem computeScore_clamped_and_cache_bounded :
    (∀ (inputs : Server.SafetyInput) (terrainRisk : ℚ),
      0 ≤ (Server.computeScore inputs terrainRisk).score ∧
      (Server.computeScore inputs terrainRisk).score ≤ 100 ∧
      0 ≤ (Server.computeScore inputs terrainRisk).confidence ∧
      (Server.computeScore inputs terrainRisk).confidence ≤ 1) ∧
    (∀ (fetch : Server.Zone → ℚ → ℚ → Except Unit Server.SafetyInput)
      (zones : List Server.Zone) (cache : Server.Cache),
      (∀ e ∈ cache, Server.scoreBounded e.2) →
      ∀ e ∈ Server.updateAllZoneScores fetch zones cache, Server.scoreBounded e.2) :=
  ⟨fun inputs t => computeScoreBoundedAux inputs t,
   fun fetch zones cache h => updateAllZoneScoresBoundedAux fetch zones cache h⟩

/-- Witness for C1 at a concrete adversarial input and a concrete sweep. -/
theorem computeScore_clamped_and_cache_bounded_witness :
    Server.scoreBounded (Server.computeScore ⟨1000000, -1000000, -5, 1000000, 0, -3⟩ 1000000) :=
  (computeScore_clamped_and_cache_bounded.2 (fun _ _ _ => .error ()) []
    [("k", Server.computeScore ⟨1000000, -1000000, -5, 1000000, 0, -3⟩ 1000000)]
    (fun e he => by
      have he' : e = ("k", Server.computeScore ⟨1000000, -1000000, -5, 1000000, 0, -3⟩ 1000000) := by
        simpa using he
      rw [he']
      exact computeScore_clamped_and_cache_bounded.1 _ _))
    ("k", Server.computeScore ⟨1000000, -1000000, -5, 1000000, 0, -3⟩ 1000000)
    (by simp [Server.updateAllZoneScores])

/-- Helper for C6: a negative-rate exponential decay is antitone in the
elapsed quantity and never amplifies a non-negative base value. -/
theorem decayAux (k v h1 h2 : ℝ) (hk : k < 0) (hv : 0 ≤ v) (h1n : 0 ≤ h1) (h12 : h1 ≤ h2) :
    v * Real.exp (k * h2) ≤ v * Real.exp (k * h1) ∧ v * Real.exp (k * h1) ≤ v := by
  constructor
  · exact mul_le_mul_of_nonneg_left (Real.exp_le_exp.mpr (by nlinarith)) hv
  · have hle : Real.exp (k * h1) ≤ 1 := by
      rw [← Real.exp_zero]
      exact Real.exp_le_exp.mpr (by nlinarith)
    have := mul_le_mul_of_nonneg_left hle hv
    simpa using this

/-- C6: both decay helpers are monotone (larger elapsed time/distance
gives a smaller or equal result) and never amplify a non-negative base
value. -/
theorem decay_monotone_never_amplifies (v h1 h2 : ℝ)
    (hv : 0 ≤ v) (h1n : 0 ≤ h1) (h12 : h1 ≤ h2) :
    Server.applyTimeDecay v h2 ≤ Server.applyTimeDecay v h1 ∧
    Server.applyTimeDecay v h1 ≤ v ∧
    Server.applySpatialDecay v h2 ≤ Server.applySpatialDecay v h1 ∧
    Server.applySpatialDecay v h1 ≤ v := by
  have hlog : Real.log (1/2) < 0 := Real.log_neg (by norm_num) (by norm_num)
  have hk24 : Real.log (1/2) / 24 < 0 := div_neg_of_neg_of_pos hlog (by norm_num)
  have hk5 : Real.log (1/2) / 5 < 0 := div_neg_of_neg_of_pos hlog (by norm_num)
  have h24 := decayAux (Real.log (1/2) / 24) v h1 h2 hk24 hv h1n h12
  have h5 := decayAux (Real.log (1/2) / 5) v h1 h2 hk5 hv h1n h12
  exact ⟨h24.1, h24.2, h5.1, h5.2⟩

/-- Witness for C6 at `v = 1`, `h1 = 0`, `h2 = 1`. -/
theorem decay_monotone_never_amplifies_witness :
    (0:ℝ) ≤ 1 ∧ (0:ℝ) ≤ 0 ∧ (0:ℝ) ≤ 1 ∧
    (Server.applyTimeDecay 1 1 ≤ Server.applyTimeDecay 1 0 ∧
      Server.applyTimeDecay 1 0 ≤ 1 ∧
      Server.applySpatialDecay 1 1 ≤ Server.applySpatialDecay 1 0 ∧
      Server.applySpatialDecay 1 0 ≤ 1) :=
  ⟨by norm_num, by norm_num, by norm_num,
    decay_monotone_never_amplifies 1 0 1 (by norm_num) (by norm_num) (by norm_num)⟩

/-- C7: the category is derived from the clamped score by the fixed
thresholds (safe iff ≤ 20, moderate iff in (20, 50], unsafe iff > 50),
and the boundary scores 20, 21, 50, 51 land in safe / moderate /
moderate / unsafe respectively. -/
theorem computeScore_category_thresholds :
    (∀ (inputs : Server.SafetyInput) (t : ℚ),
      ((Server.computeScore inputs t).category = "safe" ↔
        (Server.computeScore inputs t).score ≤ 20) ∧
      ((Server.computeScore inputs t).category = "moderate" ↔
        (20 < (Server.computeScore inputs t).score ∧ (Server.computeScore inputs t).score ≤ 50)) ∧
      ((Server.computeScore inputs t).category = "unsafe" ↔
        50 < (Server.computeScore inputs t).score)) ∧
    ((Server.computeScore ⟨0, 0, 20, 0, 0, 0⟩ 2).score = 20 ∧
      (Server.computeScore ⟨0, 0, 20, 0, 0, 0⟩ 2).category = "safe") ∧
    ((Server.computeScore ⟨0, 0, 20, 0, 0, 0⟩ 2.1).score = 21 ∧
      (Server.computeScore ⟨0, 0, 20, 0, 0, 0⟩ 2.1).category = "moderate") ∧
    ((Server.computeScore ⟨0, 0, 20, 0, 0, 0⟩ 5).score = 50 ∧
      (Server.computeScore ⟨0, 0, 20, 0, 0, 0⟩ 5).category = "moderate") ∧
    ((Server.computeScore ⟨0, 0, 20, 0, 0, 0⟩ 5.1).score = 51 ∧
      (Server.computeScore ⟨0, 0, 20, 0, 0, 0⟩ 5.1).category = "unsafe") := by
  constructor
  · intro inputs t
    have hcat : (Server.computeScore inputs t).category =
        (if (Server.computeScore inputs t).score ≤ 20 then "safe"
          else if (Server.computeScore inputs t).score ≤ 50 then "moderate" else "unsafe") := rfl
    rw [hcat]
    split_ifs with h1 h2 <;>
      refine ⟨?_, ?_, ?_⟩ <;> constructor <;> intro h <;> simp_all <;> first | rfl | linarith
  · refine ⟨⟨?_, ?_⟩, ⟨?_, ?_⟩, ⟨?_, ?_⟩, ⟨?_, ?_⟩⟩ <;>
      norm_num [Server.computeScore, Server.normalize, min_def, max_def]

/-- C2: any point outside the `NORTHEAST_BOUNDS` rectangle is classified
`restricted` with score 0 and the outside-jurisdiction reason, whatever
the distance function says about named areas and cities. -/
theorem getSafetyZone_outside_bounds
    (dist : Client.JSNum → Client.JSNum → Client.JSNum → Client.JSNum → Client.JSNum)
    (lat lng : ℚ) (h : lat < 23 ∨ 29 < lat ∨ lng < 88 ∨ 97 < lng) :
    Client.getSafetyZone dist (.num lat) (.num lng) =
      ⟨"restricted", 0, "Outside Northeast India jurisdiction"⟩ := by
  have hb : (Client.jlt (.num lat) (.num Client.NORTHEAST_BOUNDS.south) ||
      Client.jgt (.num lat) (.num Client.NORTHEAST_BOUNDS.north) ||
      Client.jlt (.num lng) (.num Client.NORTHEAST_BOUNDS.west) ||
      Client.jgt (.num lng) (.num Client.NORTHEAST_BOUNDS.east)) = true := by
    simp only [Client.jlt, Client.jgt, Client.NORTHEAST_BOUNDS, Bool.or_eq_true,
      decide_eq_true_eq]
    tauto
  simp only [Client.getSafetyZone, hb, if_true]

/-- Witness for C2 at latitude 30 (north of the boundary). -/
theorem getSafetyZone_outside_bounds_witness :
    ((30:ℚ) < 23 ∨ (29:ℚ) < 30 ∨ (92:ℚ) < 88 ∨ (97:ℚ) < 92) ∧
    Client.getSafetyZone (fun _ _ _ _ => .num 0) (.num 30) (.num 92) =
      ⟨"restricted", 0, "Outside Northeast India jurisdiction"⟩ :=
  ⟨Or.inr (Or.inl (by norm_num)),
    getSafetyZone_outside_bounds (fun _ _ _ _ => .num 0) 30 92 (Or.inr (Or.inl (by norm_num)))⟩

/-- C3: an in-bounds point within the 10 km restricted buffer of some
border area — even when it is also within the 20 km buffer of some city —
classifies as `restricted` with score 20 and the description of the first
matching restricted area in registration order. -/
theorem getSafetyZone_restricted_precedence
    (dist : Client.JSNum → Client.JSNum → Client.JSNum → Client.JSNum → Client.JSNum)
    (lat lng : ℚ) (hlat : 23 ≤ lat ∧ lat ≤ 29) (hlng : 88 ≤ lng ∧ lng ≤ 97)
    (_hres : ∃ z ∈ Client.RESTRICTED_ZONES,
      Client.jlt (dist (.num lat) (.num lng) (.num z.lat) (.num z.lng)) (.num 10) = true)
    (_hcity : ∃ c ∈ Client.NORTHEAST_CITIES,
      Client.jlt (dist (.num lat) (.num lng) (.num c.lat) (.num c.lng)) (.num 20) = true)
    (z0 : Client.NamedArea)
    (hfind : Client.RESTRICTED_ZONES.find?
      (fun z => Client.jlt (dist (.num lat) (.num lng) (.num z.lat) (.num z.lng)) (.num 10)) =
        some z0) :
    Client.getSafetyZone dist (.num lat) (.num lng) = ⟨"restricted", 20, z0.description⟩ := by
  have hb : (Client.jlt (.num lat) (.num Client.NORTHEAST_BOUNDS.south) ||
      Client.jgt (.num lat) (.num Client.NORTHEAST_BOUNDS.north) ||
      Client.jlt (.num lng) (.num Client.NORTHEAST_BOUNDS.west) ||
      Client.jgt (.num lng) (.num Client.NORTHEAST_BOUNDS.east)) = false := by
    simp only [Client.jlt, Client.jgt, Client.NORTHEAST_BOUNDS, Bool.or_eq_false_iff,
      decide_eq_false_iff_not, not_lt]
    exact ⟨⟨⟨hlat.1, hlat.2⟩, hlng.1⟩, hlng.2⟩
  simp only [Client.getSafetyZone, hb, Bool.false_eq_true, if_false, hfind]

/-- Witness for C3: with a distance function that reports 0 km everywhere,
the point (26, 92) is inside every buffer, and the first registered
restricted area (the Arunachal Pradesh China border) wins. -/
theorem getSafetyZone_restricted_precedence_witness :
    ((23:ℚ) ≤ 26 ∧ (26:ℚ) ≤ 29) ∧ ((88:ℚ) ≤ 92 ∧ (92:ℚ) ≤ 97) ∧
    Client.getSafetyZone (fun _ _ _ _ => .num 0) (.num 26) (.num 92) =
      ⟨"restricted", 20, "International border area requiring special permits"⟩ := by
  refine ⟨⟨by norm_num, by norm_num⟩, ⟨by norm_num, by norm_num⟩, ?_⟩
  exact getSafetyZone_restricted_precedence (fun _ _ _ _ => .num 0) 26 92
    ⟨by norm_num, by norm_num⟩ ⟨by norm_num, by norm_num⟩
    ⟨⟨"China Border - Arunachal Pradesh", "Arunachal Pradesh", 28.2180, 94.7278,
        "International border area requiring special permits"⟩, List.Mem.head _, by decide⟩
    ⟨⟨"Guwahati", 26.1445, 91.7362, "Assam"⟩, List.Mem.head _, by decide⟩
    ⟨"China Border - Arunachal Pradesh", "Arunachal Pradesh", 28.2180, 94.7278,
      "International border area requiring special permits"⟩
    rfl

theorem jadd_nan_left (x : Client.JSNum) : Client.jadd .nan x = .nan := by cases x <;> rfl

theorem jadd_nan_right (x : Client.JSNum) : Client.jadd x .nan = .nan := by cases x <;> rfl

theorem jsub_nan_left (x : Client.JSNum) : Client.jsub .nan x = .nan := by cases x <;> rfl

theorem jsub_nan_right (x : Client.JSNum) : Client.jsub x .nan = .nan := by cases x <;> rfl

theorem jmul_nan_left (x : Client.JSNum) : Client.jmul .nan x = .nan := by cases x <;> rfl

theorem jmul_nan_right (x : Client.JSNum) : Client.jmul x .nan = .nan := by cases x <;> rfl

theorem jdiv_nan_left (x : Client.JSNum) : Client.jdiv .nan x = .nan := by cases x <;> rfl

theorem jmin_nan_left (x : Client.JSNum) : Client.jmin .nan x = .nan := by cases x <;> rfl

theorem jlt_nan_left (x : Client.JSNum) : Client.jlt .nan x = false := by cases x <;> rfl

theorem jgt_nan_left (x : Client.JSNum) : Client.jgt .nan x = false := by cases x <;> rfl

/-- A NaN first latitude propagates through the haversine body whenever the
math primitives propagate NaN (as JavaScript's `Math.sin`, `Math.cos`,
`Math.atan2`, `Math.sqrt` all do). -/
theorem calculateDistance_nan_lat (S C : Client.JSNum → Client.JSNum)
    (A : Client.JSNum → Client.JSNum → Client.JSNum) (Q : Client.JSNum → Client.JSNum)
    (piJ lon1 lat2 lon2 : Client.JSNum)
    (hS : S .nan = .nan) (hQ : Q .nan = .nan) (hA : ∀ x, A x .nan = .nan) :
    Client.calculateDistance S C A Q piJ .nan lon1 lat2 lon2 = .nan := by
  simp only [Client.calculateDistance, jsub_nan_right, jmul_nan_left, jmul_nan_right,
    jdiv_nan_left, jadd_nan_left, jadd_nan_right, hS, hQ, hA]

/-- With NaN latitude every threshold comparison is false, so the
classifier falls through all checks to the remote fallback (it does not
reach the outside-jurisdiction branch). -/
theorem getSafetyZone_nan_fallthrough
    (dist : Client.JSNum → Client.JSNum → Client.JSNum → Client.JSNum → Client.JSNum)
    (lng : Client.JSNum) (hdist : ∀ a b : Client.JSNum, dist .nan lng a b = .nan)
    (h88 : Client.jlt lng (.num 88) = false) (h97 : Client.jgt lng (.num 97) = false) :
    Client.getSafetyZone dist .nan lng =
      ⟨"unsafe", 40, "Remote area with limited infrastructure and connectivity"⟩ := by
  simp [Client.getSafetyZone, Client.NORTHEAST_BOUNDS, Client.RESTRICTED_ZONES,
    Client.FOREST_ZONES, Client.NORTHEAST_CITIES, Client.jminList, jlt_nan_left,
    jgt_nan_left, jmin_nan_left, h88, h97, hdist, List.find?]

/-- C4 (amended): for a NaN latitude (with a longitude that does not
itself trip the bounds comparisons) the classifier does not throw and
deterministically returns the `unsafe`/40 remote-area result — not the
restricted outside-jurisdiction result — for every NaN-propagating
interpretation of the math primitives. -/
theorem getSafetyZone_nan_lat_remote (S C : Client.JSNum → Client.JSNum)
    (A : Client.JSNum → Client.JSNum → Client.JSNum) (Q : Client.JSNum → Client.JSNum)
    (piJ : Client.JSNum) (lng : ℚ)
    (hS : S .nan = .nan) (hQ : Q .nan = .nan) (hA : ∀ x, A x .nan = .nan)
    (hlng : 88 ≤ lng ∧ lng ≤ 97) :
    Client.getSafetyZone (Client.calculateDistance S C A Q piJ) .nan (.num lng) =
      ⟨"unsafe", 40, "Remote area with limited infrastructure and connectivity"⟩ := by
  refine getSafetyZone_nan_fallthrough _ _ ?_ ?_ ?_
  · intro a b
    exact calculateDistance_nan_lat S C A Q piJ (.num lng) a b hS hQ hA
  · simp [Client.jlt, not_lt.mpr hlng.1]
  · simp [Client.jgt, not_lt.mpr hlng.2]

/-- C4 counterexample: at NaN latitude and in-bounds longitude 91 the
classifier returns the remote fallback, not the outside-jurisdiction
result the claim predicts (shown at one concrete NaN-propagating
interpretation of the math primitives). -/
theorem getSafetyZone_nan_counterexample :
    Client.getSafetyZone
        (Client.calculateDistance (fun x => x) (fun x => x) Client.jadd (fun x => x) (.num 3))
        .nan (.num 91) ≠ ⟨"restricted", 0, "Outside Northeast India jurisdiction"⟩ ∧
    Client.getSafetyZone
        (Client.calculateDistance (fun x => x) (fun x => x) Client.jadd (fun x => x) (.num 3))
        .nan (.num 91) =
      ⟨"unsafe", 40, "Remote area with limited infrastructure and connectivity"⟩ := by
  constructor <;> decide

/-- Witness for the amended C4 at longitude 95 and fully-NaN primitives. -/
theorem getSafetyZone_nan_lat_remote_witness :
    ((88:ℚ) ≤ 95 ∧ (95:ℚ) ≤ 97) ∧
    Client.getSafetyZone
        (Client.calculateDistance (fun _ => .nan) (fun _ => .nan) (fun _ _ => .nan)
          (fun _ => .nan) .nan) .nan (.num 95) =
      ⟨"unsafe", 40, "Remote area with limited infrastructure and connectivity"⟩ :=
  ⟨⟨by norm_num, by norm_num⟩,
    getSafetyZone_nan_lat_remote (fun _ => .nan) (fun _ => .nan) (fun _ _ => .nan)
      (fun _ => .nan) .nan 95 rfl rfl (fun _ => rfl) ⟨by norm_num, by norm_num⟩⟩

/-- Helper for C5: a sweep never touches cache keys outside the ids of the
zones it processes. -/
theorem updateAllZoneScoresUntouchedAux
    (fetch : Server.Zone → ℚ → ℚ → Except Unit Server.SafetyInput) (zs : List Server.Zone) :
    ∀ (cache : Server.Cache) (k : String), k ∉ zs.map Server.Zone.id →
      Server.cacheLookup (Server.updateAllZoneScores fetch zs cache) k =
        Server.cacheLookup cache k := by
  induction zs with
  | nil => intro cache k _; rfl
  | cons z zs ih =>
    intro cache k hk
    simp only [List.map_cons, List.mem_cons] at hk
    push_neg at hk
    simp only [Server.updateAllZoneScores]
    cases hf : fetch z (Server.extractZoneCoords z.coordinates).1
        (Server.extractZoneCoords z.coordinates).2 with
    | error e => rfl
    | ok i =>
      rw [ih _ k hk.2]
      simp only [Server.cacheLookup, Server.cacheInsert, List.find?]
      have : (z.id == k) = false := by simp [Ne.symm hk.1]
      rw [this]

/-- C5 (amended): when the data-access call fails for one zone, the
exception is caught at sweep level, not per zone: the sweep stops there,
zones earlier in the list keep their freshly computed entries, and the
failing zone together with every remaining zone is left untouched (their
previous cached values stay visible); the sweep still returns normally,
so the failure is never fatal. -/
theorem updateAllZoneScores_abort_on_failure
    (fetch : Server.Zone → ℚ → ℚ → Except Unit Server.SafetyInput)
    (xs ys : List Server.Zone) (z : Server.Zone) (cache : Server.Cache)
    (hz : fetch z (Server.extractZoneCoords z.coordinates).1
      (Server.extractZoneCoords z.coordinates).2 = .error ()) :
    Server.updateAllZoneScores fetch (xs ++ z :: ys) cache =
      Server.updateAllZoneScores fetch xs cache ∧
    (∀ k : String, k ∉ xs.map Server.Zone.id →
      Server.cacheLookup (Server.updateAllZoneScores fetch (xs ++ z :: ys) cache) k =
        Server.cacheLookup cache k) := by
  have h1 : ∀ cache : Server.Cache,
      Server.updateAllZoneScores fetch (xs ++ z :: ys) cache =
        Server.updateAllZoneScores fetch xs cache := by
    induction xs with
    | nil =>
      intro cache
      simp only [List.nil_append, Server.updateAllZoneScores]
      rw [hz]
    | cons x xs ih =>
      intro cache
      simp only [List.cons_append, Server.updateAllZoneScores]
      cases hf : fetch x (Server.extractZoneCoords x.coordinates).1
          (Server.extractZoneCoords x.coordinates).2 with
      | error e => rfl
      | ok i => exact ih _
  refine ⟨h1 cache, ?_⟩
  intro k hk
  rw [h1 cache]
  exact updateAllZoneScoresUntouchedAux fetch xs cache k hk

/-- C5 counterexample: during a two-zone sweep in which the first zone's
data access fails and the second zone's succeeds, the second zone is
nevertheless not computed or cached — the sweep does not continue past
the failure, contradicting the claim. -/
theorem updateAllZoneScores_no_continue_counterexample :
    fetchFailFirst zoneFail 26.1445 91.7362 = .error () ∧
    fetchFailFirst zoneNext 26.1445 91.7362 = .ok ⟨0, 0, 0, 0, 0, 0⟩ ∧
    Server.updateAllZoneScores fetchFailFirst [zoneFail, zoneNext] [] = [] ∧
    Server.cacheLookup (Server.updateAllZoneScores fetchFailFirst [zoneFail, zoneNext] []) "z2" =
      none :=
  ⟨rfl, rfl, rfl, rfl⟩

/-- Witness for the amended C5: sweep with the failing zone first. -/
theorem updateAllZoneScores_abort_on_failure_witness :
    fetchFailFirst zoneFail (Server.extractZoneCoords zoneFail.coordinates).1
        (Server.extractZoneCoords zoneFail.coordinates).2 = .error () ∧
    Server.updateAllZoneScores fetchFailFirst ([] ++ zoneFail :: [zoneNext]) [] =
      Server.updateAllZoneScores fetchFailFirst [] [] :=
  ⟨rfl, (updateAllZoneScores_abort_on_failure fetchFailFirst [] [zoneNext] zoneFail [] rfl).1⟩

/-- C10: a zone whose coordinates record has neither a `center` object nor
a complete raw `lat`/`lng` pair (including a missing record) is not
skipped: it is scored at the fixed default anchor (26.1445, 91.7362),
Guwahati, and its computed score is cached. -/
theorem updateAllZoneScores_default_anchor (z : Server.Zone)
    (fetch : Server.Zone → ℚ → ℚ → Except Unit Server.SafetyInput)
    (cache : Server.Cache) (i : Server.SafetyInput)
    (hshape : z.coordinates = none ∨ ∃ cc, z.coordinates = some cc ∧ cc.center = none ∧
      (cc.lat = none ∨ cc.lng = none))
    (hfetch : fetch z 26.1445 91.7362 = .ok i) :
    Server.extractZoneCoords z.coordinates = (26.1445, 91.7362) ∧
    Server.updateAllZoneScores fetch [z] cache =
      Server.cacheInsert cache z.id
        (Server.computeScore { i with terrainRisk := Server.getTerrainRisk z.zoneType }
          (Server.getTerrainRisk z.zoneType)) := by
  have hex : Server.extractZoneCoords z.coordinates = (26.1445, 91.7362) := by
    rcases hshape with h | ⟨cc, hcc, hcen, hln⟩
    · rw [h]; rfl
    · rw [hcc]
      rcases hln with h | h
      · cases hl : cc.lng <;> simp [Server.extractZoneCoords, hcen, h, hl]
      · cases hl : cc.lat <;> simp [Server.extractZoneCoords, hcen, h, hl]
  refine ⟨hex, ?_⟩
  simp only [Server.updateAllZoneScores, hex]
  rw [hfetch]

/-- Witness for C10 with a coordinate-less forest zone. -/
theorem updateAllZoneScores_default_anchor_witness :
    Server.extractZoneCoords (⟨"zX", "forest", none⟩ : Server.Zone).coordinates =
      (26.1445, 91.7362) ∧
    Server.updateAllZoneScores (fun _ _ _ => .ok ⟨0, 0, 0, 0, 0, 0⟩)
        [(⟨"zX", "forest", none⟩ : Server.Zone)] [] =
      Server.cacheInsert [] "zX"
        (Server.computeScore
          { (⟨0, 0, 0, 0, 0, 0⟩ : Server.SafetyInput) with
              terrainRisk := Server.getTerrainRisk ("forest") }
          (Server.getTerrainRisk ("forest"))) :=
  updateAllZoneScores_default_anchor ⟨"zX", "forest", none⟩ (fun _ _ _ => .ok ⟨0, 0, 0, 0, 0, 0⟩)
    [] ⟨0, 0, 0, 0, 0, 0⟩ (Or.inl rfl) rfl

/-- C8 (amended): `adjustSafetyScoreForWeather` lower-cases the condition
text and applies the first matching tier in source order — severe
(−30), then rain/fog/mist (−15), then snow/hail (−25) — clamping at 0;
an unmatched condition leaves the score unchanged. -/
theorem adjustSafetyScoreForWeather_tiers (score : ℚ) (cond : String) (hs : 0 ≤ score) :
    ((Client.jsIncludes (Client.strToLower cond) "heavy rain" ||
      Client.jsIncludes (Client.strToLower cond) "storm" ||
      Client.jsIncludes (Client.strToLower cond) "cyclone") = true →
      Client.adjustSafetyScoreForWeather score cond = max (score - 30) 0) ∧
    ((Client.jsIncludes (Client.strToLower cond) "heavy rain" ||
      Client.jsIncludes (Client.strToLower cond) "storm" ||
      Client.jsIncludes (Client.strToLower cond) "cyclone") = false →
      (Client.jsIncludes (Client.strToLower cond) "rain" ||
       Client.jsIncludes (Client.strToLower cond) "fog" ||
       Client.jsIncludes (Client.strToLower cond) "mist") = true →
      Client.adjustSafetyScoreForWeather score cond = max (score - 15) 0) ∧
    ((Client.jsIncludes (Client.strToLower cond) "heavy rain" ||
      Client.jsIncludes (Client.strToLower cond) "storm" ||
      Client.jsIncludes (Client.strToLower cond) "cyclone") = false →
      (Client.jsIncludes (Client.strToLower cond) "rain" ||
       Client.jsIncludes (Client.strToLower cond) "fog" ||
       Client.jsIncludes (Client.strToLower cond) "mist") = false →
      (Client.jsIncludes (Client.strToLower cond) "snow" ||
       Client.jsIncludes (Client.strToLower cond) "hail") = true →
      Client.adjustSafetyScoreForWeather score cond = max (score - 25) 0) ∧
    ((Client.jsIncludes (Client.strToLower cond) "heavy rain" ||
      Client.jsIncludes (Client.strToLower cond) "storm" ||
      Client.jsIncludes (Client.strToLower cond) "cyclone") = false →
      (Client.jsIncludes (Client.strToLower cond) "rain" ||
       Client.jsIncludes (Client.strToLower cond) "fog" ||
       Client.jsIncludes (Client.strToLower cond) "mist") = false →
      (Client.jsIncludes (Client.strToLower cond) "snow" ||
       Client.jsIncludes (Client.strToLower cond) "hail") = false →
      Client.adjustSafetyScoreForWeather score cond = score) ∧
    0 ≤ Client.adjustSafetyScoreForWeather score cond := by
  refine ⟨?_, ?_, ?_, ?_, ?_⟩
  · intro h; simp only [Client.adjustSafetyScoreForWeather]; rw [h]; rfl
  · intro h1 h2; simp only [Client.adjustSafetyScoreForWeather]; rw [h1, h2]; rfl
  · intro h1 h2 h3; simp only [Client.adjustSafetyScoreForWeather]; rw [h1, h2, h3]; rfl
  · intro h1 h2 h3; simp only [Client.adjustSafetyScoreForWeather]; rw [h1, h2, h3]; rfl
  · simp only [Client.adjustSafetyScoreForWeather]
    split_ifs <;> first | exact le_max_right _ _ | exact hs

/-- C8 counterexample: "rain and snow" matches both the rain tier and the
snow tier; the code subtracts 15 (rain tier first), while the claim's
order (snow/hail before rain/fog/mist) predicts 75. -/
theorem adjustSafetyScoreForWeather_order_counterexample :
    Client.jsIncludes (Client.strToLower ("rain and snow")) "snow" = true ∧
    Client.adjustSafetyScoreForWeather 100 ("rain and snow") = 85 ∧
    Client.adjustSafetyScoreForWeather 100 ("rain and snow") ≠ 100 - 25 := by
  have h1 : (Client.jsIncludes (Client.strToLower ("rain and snow")) "heavy rain" ||
      Client.jsIncludes (Client.strToLower ("rain and snow")) "storm" ||
      Client.jsIncludes (Client.strToLower ("rain and snow")) "cyclone") = false := by decide
  have h2 : (Client.jsIncludes (Client.strToLower ("rain and snow")) "rain" ||
      Client.jsIncludes (Client.strToLower ("rain and snow")) "fog" ||
      Client.jsIncludes (Client.strToLower ("rain and snow")) "mist") = true := by decide
  have he : Client.adjustSafetyScoreForWeather 100 ("rain and snow") = max (100 - 15) 0 := by
    simp only [Client.adjustSafetyScoreForWeather]; rw [h1, h2]; rfl
  refine ⟨by decide, ?_, ?_⟩
  · rw [he]; norm_num
  · rw [he]; norm_num

/-- Witness for the amended C8 on the severe tier. -/
theorem adjustSafetyScoreForWeather_tiers_witness :
    (0:ℚ) ≤ 100 ∧ Client.adjustSafetyScoreForWeather 100 ("Heavy Rain warning") = max (100 - 30) 0 :=
  ⟨by norm_num,
    (adjustSafetyScoreForWeather_tiers 100 ("Heavy Rain warning") (by norm_num)).1 (by decide)⟩

/-- C9: the time adjustment subtracts 20 during the night window
(hour ≥ 22 or ≤ 6), 10 during the twilight windows ([6,8] and [19,22],
with the night rule winning when both apply), and nothing otherwise,
clamped at 0; in particular 90 at hour 23 becomes 70 and 90 at hour 12
stays 90. -/
theorem adjustSafetyScoreForTime_spec (score : ℚ) (hour : ℕ) (hs : 0 ≤ score) (_hh : hour ≤ 23) :
    ((22 ≤ hour ∨ hour ≤ 6) →
      Client.adjustSafetyScoreForTime score hour = max (score - 20) 0) ∧
    (¬(22 ≤ hour ∨ hour ≤ 6) → ((6 ≤ hour ∧ hour ≤ 8) ∨ (19 ≤ hour ∧ hour ≤ 22)) →
      Client.adjustSafetyScoreForTime score hour = max (score - 10) 0) ∧
    (¬(22 ≤ hour ∨ hour ≤ 6) → ¬((6 ≤ hour ∧ hour ≤ 8) ∨ (19 ≤ hour ∧ hour ≤ 22)) →
      Client.adjustSafetyScoreForTime score hour = score) ∧
    0 ≤ Client.adjustSafetyScoreForTime score hour ∧
    Client.adjustSafetyScoreForTime 90 23 = 70 ∧
    Client.adjustSafetyScoreForTime 90 12 = 90 := by
  refine ⟨?_, ?_, ?_, ?_, ?_, ?_⟩
  · intro h; simp only [Client.adjustSafetyScoreForTime]; rw [if_pos h]
  · intro h1 h2; simp only [Client.adjustSafetyScoreForTime]; rw [if_neg h1, if_pos h2]
  · intro h1 h2; simp only [Client.adjustSafetyScoreForTime]; rw [if_neg h1, if_neg h2]
  · simp only [Client.adjustSafetyScoreForTime]
    split_ifs <;> first | exact le_max_right _ _ | exact hs
  · norm_num [Client.adjustSafetyScoreForTime, max_def]
  · norm_num [Client.adjustSafetyScoreForTime]

/-- Witness for C9 at score 90 and hour 23. -/
theorem adjustSafetyScoreForTime_spec_witness :
    (0:ℚ) ≤ 90 ∧ (23:ℕ) ≤ 23 ∧ Client.adjustSafetyScoreForTime 90 23 = max (90 - 20) 0 :=
  ⟨by norm_num, by norm_num,
    (adjustSafetyScoreForTime_spec 90 23 (by norm_num) (by norm_num)).1 (Or.inl (by norm_num))⟩
